import Mathlib

/-!
NewsXHunter edge worker — verification of the core pipeline.

Shallow embedding of the edge worker's core components, translated from the
Python source under `edge_worker/app`:

* `consume_daily_quota` — the atomic per-user-per-day quota ledger
  (`adapters/repos/user_query_repo.py`),
* `upsert_raw_item` / `ingest_raw_item` — content-addressed item store
  (`adapters/repos/raw_item_repo.py`),
* `canonicalize` — the canonicalizer and dedup-key contract
  (`services/rss_ingest_service.py`), with a full SHA-256 over `Nat`,
* `get_chat_model` / `invokeGateway` — the multi-tenant LLM gateway with its
  handle cache (`services/llm_gateway.py`),
* `create_push_and_deliver` — the Bard dispatch agent
  (`services/bard_agent_service.py`),
* `ask` — the Lorekeeper Q&A agent (`services/lorekeeper_agent_service.py`),
* `handle_body` — the LINE webhook dedup dispatcher
  (`services/line_webhook_service.py`).

The relational store is modelled as explicit state (lists of rows / an
optional counter row); each SQL statement of the source is one atomic Lean
operation.  Outbound network calls (chat backend, messaging channel) are
parameters of the embedding.  Python truthiness on optional strings and the
`or` chains of the source are modelled by `pyTruthy` / `pyOrOpt` / `pyOrS`.
-/

/- ## Python string semantics helpers -/

/-- Truthiness of an optional string: `None` and `""` are falsy. -/
def pyTruthy (o : Option String) : Bool :=
  match o with
  | none => false
  | some s => s ≠ ""

/-- Python `a or b` on optional strings. -/
def pyOrOpt (a b : Option String) : Option String :=
  if pyTruthy a then a else b

/-- Python `a or b` on plain strings. -/
def pyOrS (a b : String) : String :=
  if a = "" then b else a

/-- Render an optional string where falsy values render as `""`
(`x or ''` in an f-string; `None` renders empty). -/
def pyStr (o : Option String) : String :=
  match o with
  | none => ""
  | some s => s

/-- Characters removed by Python `str.strip()`: exactly the code points for
which `str.isspace()` holds (ASCII whitespace and the C0 separators FS/GS/RS/US,
NEL, no-break space, Ogham space mark, the U+2000 block spaces, line and
paragraph separators, narrow no-break space, medium mathematical space,
ideographic space). -/
def isPySpace (c : Char) : Bool :=
  let n := c.toNat
  (9 ≤ n && n ≤ 13) || (28 ≤ n && n ≤ 32) || n == 133 || n == 160 || n == 5760 ||
  (8192 ≤ n && n ≤ 8202) || n == 8232 || n == 8233 || n == 8239 || n == 8287 ||
  n == 12288

/-- Python `str.strip()` on a character list: drop whitespace on both ends. -/
def pyStripList (l : List Char) : List Char :=
  ((l.dropWhile isPySpace).reverse.dropWhile isPySpace).reverse

/-- Python `str.strip()`. -/
def pyStrip (s : String) : String :=
  String.mk (pyStripList s.data)

/-- Python slicing `s[:n]` (by code points). -/
def pyTake (n : Nat) (s : String) : String :=
  String.mk (s.data.take n)

/- ## SHA-256 over `Nat` (as used by `hashlib.sha256(...).hexdigest()`) -/

/-- Truncate to 32 bits. -/
def w32 (x : Nat) : Nat := x % 4294967296

/-- The 32-bit right rotation. -/
def rotr32 (n x : Nat) : Nat := w32 ((x >>> n) ||| (x <<< (32 - n)))

def shaCh (x y z : Nat) : Nat := (x &&& y) ^^^ ((4294967295 ^^^ x) &&& z)

def shaMaj (x y z : Nat) : Nat := (x &&& y) ^^^ (x &&& z) ^^^ (y &&& z)

def sumA (x : Nat) : Nat := rotr32 2 x ^^^ rotr32 13 x ^^^ rotr32 22 x

def sumE (x : Nat) : Nat := rotr32 6 x ^^^ rotr32 11 x ^^^ rotr32 25 x

def sigLow (x : Nat) : Nat := rotr32 7 x ^^^ rotr32 18 x ^^^ (x >>> 3)

def sigHigh (x : Nat) : Nat := rotr32 17 x ^^^ rotr32 19 x ^^^ (x >>> 10)

/-- SHA-256 round constants. -/
def shaK : Array Nat := #[
  1116352408, 1899447441, 3049323471, 3921009573,
  961987163, 1508970993, 2453635748, 2870763221,
  3624381080, 310598401, 607225278, 1426881987,
  1925078388, 2162078206, 2614888103, 3248222580,
  3835390401, 4022224774, 264347078, 604807628,
  770255983, 1249150122, 1555081692, 1996064986,
  2554220882, 2821834349, 2952996808, 3210313671,
  3336571891, 3584528711, 113926993, 338241895,
  666307205, 773529912, 1294757372, 1396182291,
  1695183700, 1986661051, 2177026350, 2456956037,
  2730485921, 2820302411, 3259730800, 3345764771,
  3516065817, 3600352804, 4094571909, 275423344,
  430227734, 506948616, 659060556, 883997877,
  958139571, 1322822218, 1537002063, 1747873779,
  1955562222, 2024104815, 2227730452, 2361852424,
  2428436474, 2756734187, 3204031479, 3329325298]

/-- SHA-256 initial hash state. -/
structure Hash8 where
  a : Nat
  b : Nat
  c : Nat
  d : Nat
  e : Nat
  f : Nat
  g : Nat
  h : Nat
deriving Repr, DecidableEq

def shaH0 : Hash8 :=
  ⟨1779033703, 3144134277, 1013904242, 2773480762,
   1359893119, 2600822924, 528734635, 1541459225⟩

/-- One SHA-256 compression round. -/
def shaStep (k w : Nat) (s : Hash8) : Hash8 :=
  let t1 := w32 (s.h + sumE s.e + shaCh s.e s.f s.g + k + w)
  let t2 := w32 (sumA s.a + shaMaj s.a s.b s.c)
  ⟨w32 (t1 + t2), s.a, s.b, s.c, w32 (s.d + t1), s.e, s.f, s.g⟩

/-- Extend 16 message words to the 64-word schedule. -/
def shaSchedule (ws : List Nat) : Array Nat :=
  (List.range 48).foldl
    (fun arr _ =>
      arr.push (w32 (sigHigh (arr.getD (arr.size - 2) 0) + arr.getD (arr.size - 7) 0 +
                     sigLow (arr.getD (arr.size - 15) 0) + arr.getD (arr.size - 16) 0)))
    ws.toArray

/-- Compress one 16-word block into the running hash. -/
def shaBlock (h0 : Hash8) (block : List Nat) : Hash8 :=
  let w := shaSchedule block
  let s := (List.range 64).foldl (fun s i => shaStep (shaK.getD i 0) (w.getD i 0) s) h0
  ⟨w32 (h0.a + s.a), w32 (h0.b + s.b), w32 (h0.c + s.c), w32 (h0.d + s.d),
   w32 (h0.e + s.e), w32 (h0.f + s.f), w32 (h0.g + s.g), w32 (h0.h + s.h)⟩

/-- Big-endian bytes (given count) of a number. -/
def beBytes (count x : Nat) : List Nat :=
  (List.range count).map (fun i => (x >>> (8 * (count - 1 - i))) % 256)

/-- SHA-256 padding: `0x80`, zeros, then the 64-bit big-endian bit length. -/
def shaPad (bytes : List Nat) : List Nat :=
  let len := bytes.length
  bytes ++ [0x80] ++ List.replicate ((119 - len % 64) % 64) 0 ++ beBytes 8 (8 * len)

/-- Pack bytes into big-endian 32-bit words. -/
def toWords : List Nat → List Nat
  | a :: b :: c :: d :: rest => ((a <<< 24) ||| (b <<< 16) ||| (c <<< 8) ||| d) :: toWords rest
  | _ => []

/-- Split a word list into 16-word blocks. -/
def toBlocks : List Nat → List (List Nat)
  | [] => []
  | x :: rest => (x :: rest.take 15) :: toBlocks (rest.drop 15)
termination_by l => l.length
decreasing_by
  simp only [List.length_cons, List.length_drop]
  omega

/-- UTF-8 encoding of one character, as byte values. -/
def utf8Char (c : Char) : List Nat :=
  let n := c.toNat
  if n < 128 then [n]
  else if n < 2048 then [192 ||| (n >>> 6), 128 ||| (n &&& 63)]
  else if n < 65536 then
    [224 ||| (n >>> 12), 128 ||| ((n >>> 6) &&& 63), 128 ||| (n &&& 63)]
  else
    [240 ||| (n >>> 18), 128 ||| ((n >>> 12) &&& 63), 128 ||| ((n >>> 6) &&& 63), 128 ||| (n &&& 63)]

/-- UTF-8 bytes of a string (`.encode("utf-8")`). -/
def strBytes (s : String) : List Nat :=
  (s.data.map utf8Char).flatten

def hexDigit (d : Nat) : Char :=
  Char.ofNat (if d < 10 then 48 + d else 87 + d)

/-- Lowercase hex of one 32-bit word, 8 digits. -/
def hexWord (x : Nat) : String :=
  String.mk ((List.range 8).map (fun i => hexDigit ((x >>> (28 - 4 * i)) % 16)))

/-- SHA-256 of a byte list, as the 8 final hash words. -/
def sha256Words (bytes : List Nat) : Hash8 :=
  (toBlocks (toWords (shaPad bytes))).foldl shaBlock shaH0

/-- Model of `hashlib.sha256(s.encode("utf-8")).hexdigest()`. -/
def sha256Hex (s : String) : String :=
  let h := sha256Words (strBytes s)
  hexWord h.a ++ hexWord h.b ++ hexWord h.c ++ hexWord h.d ++
  hexWord h.e ++ hexWord h.f ++ hexWord h.g ++ hexWord h.h

/- ## JSON values (opaque structured payloads, `json.dumps`) -/

/-- Semi-structured JSON value: the opaque `raw` / `payload` / `meta` columns
and webhook event bodies. -/
inductive Json where
  | null
  | bool (b : Bool)
  | num (n : Int)
  | str (s : String)
  | arr (xs : List Json)
  | obj (kvs : List (String × Json))

/-- JSON string escaping as `json.dumps(..., ensure_ascii=False)` performs it. -/
def jsonEscapeChar (c : Char) : String :=
  if c = '"' then "\\\""
  else if c = '\\' then "\\\\"
  else if c = '\n' then "\\n"
  else if c = '\r' then "\\r"
  else if c = '\t' then "\\t"
  else if c.toNat < 32 then
    "\\u00" ++ String.mk [hexDigit (c.toNat / 16), hexDigit (c.toNat % 16)]
  else String.mk [c]

def jsonEscape (s : String) : String :=
  String.join (s.data.map jsonEscapeChar)

/-- Insertion sort of rendered object entries by key (for `sort_keys=True`). -/
def insertPairByKey (p : String × String) : List (String × String) → List (String × String)
  | [] => [p]
  | q :: rest => if p.1 ≤ q.1 then p :: q :: rest else q :: insertPairByKey p rest

def sortPairsByKey (l : List (String × String)) : List (String × String) :=
  l.foldr insertPairByKey []

mutual

/-- Python `json.dumps(v, ensure_ascii=False)`, with `sort_keys` as a flag. -/
def jsonDumpsCore (sortKeys : Bool) : Json → String
  | .null => "null"
  | .bool b => if b then "true" else "false"
  | .num n => toString n
  | .str s => "\"" ++ jsonEscape s ++ "\""
  | .arr xs => "[" ++ String.intercalate ", " (jsonDumpsListCore sortKeys xs) ++ "]"
  | .obj kvs =>
      let ps := jsonDumpsPairsCore sortKeys kvs
      let ps2 := if sortKeys then sortPairsByKey ps else ps
      "\x7b" ++
        String.intercalate ", " (ps2.map (fun kv => "\"" ++ jsonEscape kv.1 ++ "\": " ++ kv.2)) ++
        "\x7d"

def jsonDumpsListCore (sortKeys : Bool) : List Json → List String
  | [] => []
  | x :: xs => jsonDumpsCore sortKeys x :: jsonDumpsListCore sortKeys xs

def jsonDumpsPairsCore (sortKeys : Bool) : List (String × Json) → List (String × String)
  | [] => []
  | (k, v) :: xs => (k, jsonDumpsCore sortKeys v) :: jsonDumpsPairsCore sortKeys xs

end

/-- Python `json.dumps(v, ensure_ascii=False)` (insertion order preserved). -/
def jsonDumps (j : Json) : String := jsonDumpsCore false j

/-- Python `json.dumps(v, sort_keys=True, ensure_ascii=False)`. -/
def jsonDumpsSorted (j : Json) : String := jsonDumpsCore true j

/-- Python `dict.get(key)` on a JSON object; `None` on non-objects. -/
def jsonGet (j : Json) (key : String) : Option Json :=
  match j with
  | .obj kvs => (kvs.find? (fun kv => kv.1 == key)).map (fun kv => kv.2)
  | _ => none

/- ## Quota Ledger (`UserQueryRepo.consume_daily_quota`) -/

/-- One `user_daily_question_usage` row for a fixed `(user_id, usage_date)`. -/
structure QuotaRow where
  used : Int
  limit : Int
deriving Repr, DecidableEq

/-- The result dictionary of `consume_daily_quota`. -/
structure QuotaResult where
  allowed : Bool
  used_count : Int
  limit_count : Int
  remaining : Int
deriving Repr, DecidableEq

/-- The conditional-increment upsert (one atomic SQL statement):
`INSERT ... VALUES (.., 1, L) ON CONFLICT DO UPDATE SET used_count = used_count + 1
WHERE used_count < limit_count RETURNING used_count, limit_count`.
Returns the new row state and the `RETURNING` row (none when no row was
affected, i.e. the conflict row was already at its limit). -/
def quotaUpsert (row? : Option QuotaRow) (limit_count : Int) : Option QuotaRow × Option QuotaRow :=
  match row? with
  | none => (some ⟨1, limit_count⟩, some ⟨1, limit_count⟩)
  | some r =>
      if r.used < r.limit then (some ⟨r.used + 1, r.limit⟩, some ⟨r.used + 1, r.limit⟩)
      else (some r, none)

/-- The Python result construction after the upsert: grant when the upsert
returned a row; otherwise read back (`lookup_sql`) and deny with the stored
counters; if even the read-back finds nothing, best-effort denial from the
caller-supplied limit. -/
def consumeCore (upsertRet lookupSt : Option QuotaRow) (limit_count : Int) : QuotaResult :=
  match upsertRet with
  | some r => ⟨true, r.used, r.limit, max (r.limit - r.used) 0⟩
  | none =>
      match lookupSt with
      | some r => ⟨false, r.used, r.limit, max (r.limit - r.used) 0⟩
      | none => ⟨false, 0, limit_count, limit_count⟩

/-- Model of `consume_daily_quota` with the read-back observing the state left by this
call's own upsert (the isolated / serialized execution). -/
def consume_daily_quota (row? : Option QuotaRow) (limit_count : Int) :
    Option QuotaRow × QuotaResult :=
  let s := quotaUpsert row? limit_count
  (s.1, consumeCore s.2 s.1 limit_count)

/-- Model of `consume_daily_quota` where the read-back may observe a different row
state (the two SQL statements are individually atomic but a concurrent writer
may interleave between them — e.g. remove the row). -/
def consume_daily_quota_race (row? lookup? : Option QuotaRow) (limit_count : Int) :
    Option QuotaRow × QuotaResult :=
  let s := quotaUpsert row? limit_count
  (s.1, consumeCore s.2 lookup? limit_count)

/-- Row state after `n` sequential `consume_daily_quota` calls with limit `L`,
starting from no row. -/
def quotaStateAfter (L : Int) : Nat → Option QuotaRow
  | 0 => none
  | n + 1 => (consume_daily_quota (quotaStateAfter L n) L).1

/-- How many of the first `n` calls returned `allowed=true`. -/
def quotaAllowedCount (L : Int) : Nat → Nat
  | 0 => 0
  | n + 1 =>
      quotaAllowedCount L n +
        (if (consume_daily_quota (quotaStateAfter L n) L).2.allowed then 1 else 0)

/-- The `used_count` of an optional row (0 when absent). -/
def usedOf : Option QuotaRow → Int
  | none => 0
  | some r => r.used

/- ## Item Store (`RawItemRepo`) -/

/-- One row of the `sources` table. -/
structure SourceRow where
  id : Int
  source_key : String
  enabled : Bool
deriving Repr, DecidableEq

/-- The canonical record produced by `RssIngestService._canonicalize`. -/
structure CanonRecord where
  item_id : String
  source_id : Int
  source_key : String
  url : String
  title : String
  summary : String
  published_at : Option String
  fetched_at : String
  lang : String
  dedup_key : String
  rights : String
  raw : Json
  status : String

/-- One stored `raw_items` row (`id` is the database-assigned primary key). -/
structure RawItemRow where
  id : Nat
  item_id : String
  source_id : Int
  source_key : String
  url : String
  title : String
  summary : String
  published_at : Option String
  fetched_at : String
  lang : String
  dedup_key : String
  rights : String
  raw : Json
  status : String

/-- The row inserted for a canonical record. -/
def rawRowOf (id : Nat) (d : CanonRecord) : RawItemRow :=
  ⟨id, d.item_id, d.source_id, d.source_key, d.url, d.title, d.summary,
   d.published_at, d.fetched_at, d.lang, d.dedup_key, d.rights, d.raw, d.status⟩

/-- The `raw_items` table: rows plus the next primary key. -/
structure RawTable where
  rows : List RawItemRow
  next_id : Nat

/-- Result dictionary of `upsert_raw_item`. -/
structure UpsertResult where
  raw_item_id : Option Nat
  inserted : Bool
deriving Repr, DecidableEq

/-- Result dictionary of `ingest_raw_item`. -/
structure IngestResult where
  source_valid : Bool
  inserted : Bool
  raw_item_id : Option Nat
deriving Repr, DecidableEq

/-- The row holding a dedup key, if any (the table's unique index). -/
def findRaw (rows : List RawItemRow) (key : String) : Option RawItemRow :=
  rows.find? (fun r => r.dedup_key == key)

/-- Model of `RawItemRepo.upsert_raw_item`: one atomic
`INSERT ... ON CONFLICT (dedup_key) DO UPDATE SET fetched_at = EXCLUDED.fetched_at
RETURNING id, (xmax = 0) AS inserted`.  On conflict only `fetched_at` changes;
`inserted` is true exactly when a fresh row was created. -/
def upsert_raw_item (tbl : RawTable) (d : CanonRecord) : RawTable × UpsertResult :=
  match findRaw tbl.rows d.dedup_key with
  | some r =>
      ({ rows := tbl.rows.map
           (fun row => if row.dedup_key == d.dedup_key
                       then { row with fetched_at := d.fetched_at } else row),
         next_id := tbl.next_id },
       ⟨some r.id, false⟩)
  | none =>
      ({ rows := tbl.rows ++ [rawRowOf tbl.next_id d], next_id := tbl.next_id + 1 },
       ⟨some tbl.next_id, true⟩)

/-- Model of `RawItemRepo.validate_source`: the source must exist, match the key and be
enabled. -/
def validate_source (sources : List SourceRow) (source_id : Int) (source_key : String) : Bool :=
  sources.any (fun s => s.id == source_id && s.source_key == source_key && s.enabled)

/-- Model of `RawItemRepo.ingest_raw_item`: validate the source, then upsert; an invalid
source writes nothing. -/
def ingest_raw_item (sources : List SourceRow) (tbl : RawTable)
    (source_id : Int) (source_key : String) (d : CanonRecord) : RawTable × IngestResult :=
  if validate_source sources source_id source_key then
    let s := upsert_raw_item tbl d
    (s.1, ⟨true, s.2.inserted, s.2.raw_item_id⟩)
  else
    (tbl, ⟨false, false, none⟩)

/- ## Canonicalizer (`RssIngestService._canonicalize`) -/

/-- The `source` part of an ingest request. -/
structure SourceCtx where
  source_id : Int
  source_key : String

/-- The heterogeneous `item` part of an ingest request
(`RssItem` in `schemas/rss_update.py`; `raw` is already normalized to an
optional object by the schema validator). -/
structure RssItem where
  link : Option String := none
  url : Option String := none
  guid : Option String := none
  title : Option String := none
  summary : Option String := none
  contentSnippet : Option String := none
  content : Option String := none
  isoDate : Option String := none
  pubDate : Option String := none
  creator : Option String := none
  rights : Option Json := none
  raw : Option Json := none

/-- The documented default rights policy object. -/
def defaultRights : Json :=
  Json.obj [("store_fulltext", Json.bool false), ("mode", Json.str "rss_summary_link_only")]

/-- Model of `RssIngestService._normalize_rights`: pass strings through, JSON-encode
anything else.  (For values of the `Json` type `json.dumps` cannot raise
`TypeError`, so the `str(value)` fallback is unreachable here.) -/
def normalize_rights (v : Option Json) : String :=
  match v with
  | none => ""
  | some (.str s) => s
  | some j => jsonDumps j

/-- Model of `RssIngestService._canonicalize`.  `now` is the captured UTC timestamp
(`datetime.now(timezone.utc).isoformat()`), passed explicitly. -/
def canonicalize (source : SourceCtx) (item : RssItem) (now : String) : CanonRecord :=
  let url := pyStr (pyOrOpt item.link item.url)
  let title := pyStr item.title
  let summary := pyStr (pyOrOpt (pyOrOpt item.summary item.contentSnippet) item.content)
  let published := pyOrOpt item.isoDate item.pubDate
  let dedup_input :=
    source.source_key ++ "||" ++ pyStr item.guid ++ "||" ++ url ++ "||" ++ title ++ "||" ++
      pyStr published
  let dedup_key := sha256Hex dedup_input
  { item_id := source.source_key ++ ":sha256:" ++ dedup_key
    source_id := source.source_id
    source_key := source.source_key
    url := url
    title := title
    summary := summary
    published_at := published
    fetched_at := now
    lang := "en"
    dedup_key := dedup_key
    rights := normalize_rights (some (item.rights.getD defaultRights))
    raw := item.raw.getD (Json.obj [])
    status := "RAW" }

/- ## Model Gateway (`LLMGateway`) -/

/-- Tenant-level configuration (`TenantConfig`).  Inference parameters are
modelled as ordered key/value pairs (their rendering is all the cache key
needs). -/
structure TenantConfig where
  tenant_id : String
  provider : String := "openai"
  model : String := "gpt-4o-mini"
  api_key : Option String := none
  base_url : Option String := none
  organization : Option String := none
  default_params : List (String × String) := [("temperature", "0.2")]
  tags : List String := []

/-- A built backend handle.  `bound` is LangChain's `.bind(**params)`: a
wrapper around an existing handle, not a rebuild. -/
inductive BuiltModel where
  | make (provider model : String) (api_key base_url organization : Option String)
         (tags : List String) (init_params : List (String × String))
  | bound (base : BuiltModel) (bind_params : List (String × String))

/-- Gateway error classes: `KeyError` for an unknown tenant is the
NotFound-class error; `ValueError` for provider/credential problems is the
Configuration-class error; backend failures propagate as `backendError`. -/
inductive GwError where
  | notFound (msg : String)
  | configError (msg : String)
  | backendError (msg : String)

/-- The gateway's state: registered tenants, key defaults, environment,
custom factory and the handle cache. -/
structure Gateway where
  tenants : List (String × TenantConfig)
  openai_api_key_default : Option String := none
  openai_env_var : String := "OPENAI_API_KEY"
  custom_factory : Option (TenantConfig → BuiltModel) := none
  enable_model_cache : Bool := true
  env : String → Option String := fun _ => none
  model_cache : List (String × BuiltModel) := []

/-- Model of `LLMGateway.get_tenant`: unknown tenant ids raise `KeyError`. -/
def get_tenant (gw : Gateway) (tenant_id : String) : Except GwError TenantConfig :=
  match gw.tenants.find? (fun kv => kv.1 == tenant_id) with
  | some kv => .ok kv.2
  | none => .error (.notFound ("Unknown tenant_id: " ++ tenant_id))

/-- Model of `LLMGateway._resolve_openai_key`: gateway default, then the
tenant-suffixed environment variable, then the generic one (each skipped when
falsy). -/
def resolve_openai_key (gw : Gateway) (tenant_id : String) : Option String :=
  pyOrOpt gw.openai_api_key_default
    (pyOrOpt (gw.env (gw.openai_env_var ++ "__" ++ tenant_id.toUpper))
      (gw.env gw.openai_env_var))

/-- The rendering `str(sorted(params.items()))` — only used as an opaque deterministic
rendering of the parameter set inside the cache key. -/
def paramsMarker (params : List (String × String)) : String :=
  "[" ++
    String.intercalate ", "
      ((sortPairsByKey params).map (fun kv => "(" ++ kv.1 ++ ", " ++ kv.2 ++ ")")) ++
  "]"

/-- Model of `LLMGateway._cache_key`: tenant, provider, model, base-url marker,
presence-of-api-key marker, and the rendered parameter set. -/
def cache_key (tenant_id provider model : String) (base_url api_key : Option String)
    (params : List (String × String)) : String :=
  tenant_id ++ "::" ++ provider ++ "::" ++ model ++ "::" ++ base_url.getD "" ++ "::k" ++
    (if pyTruthy api_key then "1" else "0") ++ "::" ++ paramsMarker params

/-- Python `dict.update` on ordered key/value pairs. -/
def updateParam (l : List (String × String)) (p : String × String) : List (String × String) :=
  if l.any (fun q => q.1 == p.1) then l.map (fun q => if q.1 == p.1 then p else q)
  else l ++ [p]

/-- Computes `params = dict(cfg.default_params); params.update(overrides)`. -/
def mergeParams (defaults overrides : List (String × String)) : List (String × String) :=
  overrides.foldl updateParam defaults

/-- Per-call overrides: `provider` / `model` / `base_url` / `api_key` are the
keys `_get_chat_model` pops (absent = fall back to the tenant config); every
remaining keyword lands in `params`. -/
structure Overrides where
  provider : Option String := none
  model : Option String := none
  base_url : Option String := none
  api_key : Option String := none
  params : List (String × String) := []

/-- Model of `LLMGateway._build_provider_model`: OpenAI requires a truthy api key,
Ollama builds unconditionally, `custom` requires a configured factory, and any
other provider name is unsupported.  Building never contacts the network. -/
def build_provider_model (gw : Gateway) (cfg : TenantConfig) (provider model_name : String)
    (api_key base_url : Option String) (params : List (String × String)) :
    Except GwError BuiltModel :=
  let tags := cfg.tags ++ ["tenant:" ++ cfg.tenant_id, "provider:" ++ provider]
  if provider == "openai" then
    if pyTruthy api_key then
      .ok (.make "openai" model_name api_key base_url cfg.organization tags params)
    else
      .error (.configError ("OpenAI api_key not found for tenant " ++ cfg.tenant_id))
  else if provider == "ollama" then
    .ok (.make "ollama" model_name none base_url none tags params)
  else if provider == "custom" then
    match gw.custom_factory with
    | none => .error (.configError "provider custom requires LLMGateway custom_factory")
    | some f => .ok (.bound (f cfg) params)
  else
    .error (.configError ("Unsupported provider: " ++ provider))

/-- The cache key `_get_chat_model` computes for a call (source lines
resolving provider/model/base_url/api_key and calling `_cache_key` with
`cfg.default_params`). -/
def gw_cache_key_of (gw : Gateway) (tenant_id : String) (ov : Overrides) :
    Except GwError String :=
  match get_tenant gw tenant_id with
  | .error e => .error e
  | .ok cfg =>
      .ok (cache_key tenant_id (ov.provider.getD cfg.provider) (ov.model.getD cfg.model)
            (match ov.base_url with | some b => some b | none => cfg.base_url)
            (pyOrOpt ov.api_key (pyOrOpt cfg.api_key (resolve_openai_key gw tenant_id)))
            cfg.default_params)

/-- Model of `LLMGateway._get_chat_model`: resolve effective settings, consult the
cache (re-parameterizing a hit via `bind`), otherwise build and store. -/
def get_chat_model (gw : Gateway) (tenant_id : String) (ov : Overrides) :
    Except GwError (Gateway × BuiltModel) :=
  match get_tenant gw tenant_id with
  | .error e => .error e
  | .ok cfg =>
      let provider := ov.provider.getD cfg.provider
      let model_name := ov.model.getD cfg.model
      let base_url := match ov.base_url with | some b => some b | none => cfg.base_url
      let api_key := pyOrOpt ov.api_key (pyOrOpt cfg.api_key (resolve_openai_key gw tenant_id))
      let params := mergeParams cfg.default_params ov.params
      let key := cache_key tenant_id provider model_name base_url api_key cfg.default_params
      if gw.enable_model_cache then
        match gw.model_cache.find? (fun kv => kv.1 == key) with
        | some kv => .ok (gw, .bound kv.2 params)
        | none =>
            match build_provider_model gw cfg provider model_name api_key base_url params with
            | .error e => .error e
            | .ok built =>
                .ok ({ gw with model_cache := gw.model_cache ++ [(key, built)] }, built)
      else
        match build_provider_model gw cfg provider model_name api_key base_url params with
        | .error e => .error e
        | .ok built => .ok (gw, built)

/-- Model of `LLMGateway.invoke`, instrumented with the number of backend invocations
(the `backend` parameter stands for the network call `model.invoke(...)`;
its failures are uncaught by the gateway).  Returns the outcome and how many
times the backend was called. -/
def invokeGateway (gw : Gateway) (tenant_id : String) (ov : Overrides)
    (messages : List (String × String))
    (backend : BuiltModel → List (String × String) → Except String String) :
    Except GwError (Gateway × String) × Nat :=
  match get_chat_model gw tenant_id ov with
  | .error e => (.error e, 0)
  | .ok s =>
      match backend s.2 messages with
      | .error e => (.error (.backendError e), 1)
      | .ok content => (.ok (s.1, content), 1)

/- ## Dispatch Agent "Bard" (`BardAgentService.create_push_and_deliver`) -/

/-- Token usage extracted from a backend message. -/
structure Usage where
  input_tokens : Int
  output_tokens : Int
  total_tokens : Int
deriving Repr, DecidableEq

def zeroUsage : Usage := ⟨0, 0, 0⟩

/-- The push source joined by `LineDeliveryRepo.fetch_push_source`
(missing columns already coalesced to `""` by the repo). -/
structure PushSource where
  raw_item_id : Nat
  source_title : String
  source_summary : String
  source_url : String
  translation_id : Option Nat
  translated_title : String
  translated_summary : String

/-- Outcome of `_generate_push_message` when it does not raise. -/
structure GenOut where
  title : String
  message_body : String
  usage : Usage

/-- Response of the LINE push endpoint as `_push_to_line` reports it. -/
structure PushResp where
  ok : Bool
  line_request_id : Option String := none
  error_msg : Option String := none

/-- Model of `BardAgentService._push_to_line`: missing/falsy access token fails
without any network call; otherwise the channel is called with the message
truncated to 5000 characters.  Also returns the text actually sent (none when
no network call happened). -/
def push_to_line (token : Option String) (channel : String → PushResp) (message : String) :
    PushResp × Option String :=
  if pyTruthy token then
    (channel (pyTake 5000 message), some (pyTake 5000 message))
  else
    (⟨false, none, some "LINE_CHANNEL_ACCESS_TOKEN is missing"⟩, none)

/-- One append-only `agent_runs` row. -/
structure AgentRunRow where
  agent : String
  user_id : Option Nat
  raw_item_id : Option Nat
  query_id : Option Nat
  provider : String
  model : String
  prompt_version : String
  input_tokens : Int
  output_tokens : Int
  total_tokens : Int
  latency_ms : Option Int
  status : String
  error_message : Option String
  meta : Json

/-- One `line_push_messages` row. -/
structure PushMsgRow where
  user_id : Nat
  raw_item_id : Nat
  translation_id : Option Nat
  agent_run_id : Nat
  target_line_user_id : String
  title : String
  message_body : String
  payload : Json
  status : String
  line_request_id : Option String
  error_message : Option String
  sent_at : Option String

/-- The Bard service's persistent state: run log and push-message rows
(row ids are list positions). -/
structure BardState where
  runs : List AgentRunRow
  pushes : List PushMsgRow

/-- The result dictionary of `create_push_and_deliver`. -/
structure DispatchResult where
  user_id : Nat
  agent_run_id : Nat
  push_message_id : Nat
  delivery_status : String
  line_request_id : Option String
  message_preview : String

/-- Model of `BardAgentService.create_push_and_deliver`.  Explicit parameters stand
for the collaborators: `user_id` is the upserted user's id, `source?` the
fetched push source (none = missing raw item, `ValueError`), `gen` the outcome
of `_generate_push_message` (error = any exception during generation), `token`
the channel access token, `channel` the LINE push endpoint, `now` the
capture-time timestamp, and latency measurement is elided (stored as 0).
Returns the new state, the result dictionary, and the text actually sent to
the channel (none when no push network call happened). -/
def create_push_and_deliver (tenant_provider tenant_model : String) (user_id : Nat)
    (raw_item_id : Nat) (line_user_id : String) (source? : Option PushSource)
    (gen : Except String GenOut) (send : Bool) (token : Option String)
    (channel : String → PushResp) (now : String) (st : BardState) :
    Except String (BardState × DispatchResult × Option String) :=
  match source? with
  | none => .error ("raw_item_id=" ++ toString raw_item_id ++ " not found")
  | some source =>
    let title := pyOrS source.translated_title source.source_title
    let summary := pyOrS source.translated_summary source.source_summary
    let content_url := source.source_url
    let gened :=
      match gen with
      | .ok g => (g.title, g.message_body, g.usage, "DONE", (none : Option String))
      | .error e =>
          (pyTake 120 title, pyStrip (summary ++ "\n\n" ++ content_url), zeroUsage,
           "FAILED", some e)
    let final_title := gened.1
    let final_body := gened.2.1
    let usage := gened.2.2.1
    let llm_status := gened.2.2.2.1
    let llm_error := gened.2.2.2.2
    let run : AgentRunRow :=
      ⟨"Bard", some user_id, some raw_item_id, none, tenant_provider, tenant_model,
       "bard-v1", usage.input_tokens, usage.output_tokens, usage.total_tokens, some 0,
       llm_status, llm_error,
       Json.obj [("fallback_used", Json.bool (!(llm_status == "DONE")))]⟩
    let agent_run_id := st.runs.length
    let delivered :=
      if send then
        let s := push_to_line token channel final_body
        ((if s.1.ok then "SENT" else "FAILED"), s.1.line_request_id, s.1.error_msg,
         (if s.1.ok then some now else (none : Option String)), s.2)
      else
        ("PENDING", none, none, none, none)
    let delivery_status := delivered.1
    let line_request_id := delivered.2.1
    let delivery_error := delivered.2.2.1
    let sent_at := delivered.2.2.2.1
    let sentText := delivered.2.2.2.2
    let payload := Json.obj [("messages",
      Json.arr [Json.obj [("type", Json.str "text"), ("text", Json.str final_body)]])]
    let push : PushMsgRow :=
      ⟨user_id, raw_item_id, source.translation_id, agent_run_id, line_user_id,
       final_title, final_body, payload, delivery_status, line_request_id,
       delivery_error, sent_at⟩
    let push_message_id := st.pushes.length
    .ok ({ runs := st.runs ++ [run], pushes := st.pushes ++ [push] },
         ⟨user_id, agent_run_id, push_message_id, delivery_status, line_request_id,
          final_body⟩,
         sentText)

/- ## Q&A Agent "Lorekeeper" (`LorekeeperAgentService.ask`) -/

/-- A `rag_spaces` row as `get_rag_space` reports it. -/
structure RagSpace where
  space_key : String
  backend : String
  mode : String
  is_graph_enabled : Bool
  graph_namespace : String

/-- The fallback space used when the key is unknown. -/
def defaultRagSpace : RagSpace :=
  ⟨"default", "arango", "vector", true, "default_graph"⟩

/-- One `user_queries` row. -/
structure UserQueryRow where
  user_id : Nat
  question_text : String
  answer_text : Option String
  status : String
  rejected_reason : Option String
  rag_provider : String
  rag_space_key : String
  rag_mode : String
  rag_refs : List Json
  graph_plan : Json
  answered_at : Option String

/-- A backend chat message: its text content and the token usage the
`_extract_token_usage` helper reads off it. -/
structure LlmMsg where
  content : String
  usage : Usage

/-- The Lorekeeper service's persistent state: the quota row for
(user, today), the `user_queries` rows and the `agent_runs` rows. -/
structure AskState where
  quota : Option QuotaRow
  queries : List UserQueryRow
  runs : List AgentRunRow

/-- The result dictionary of `ask`. -/
structure AskResult where
  user_id : Nat
  query_id : Nat
  status : String
  answer : Option String
  rejected_reason : Option String
  usage : QuotaResult

/-- The fixed placeholder substituted for an empty generated answer. -/
def lorekeeperPlaceholder : String := "目前找不到足夠資料回答，請提供更具體的問題。"

/-- The generic user-facing busy message returned on failure. -/
def lorekeeperBusy : String := "系統忙碌中，請稍後再試。"

/-- The user-facing daily-limit denial message. -/
def dailyLimitMsg : String := "你今日提問次數已達上限（5次）。"

/-- Model of `LorekeeperAgentService._retrieve_context`: the diagnostic placeholder
reference (vector retrieval is an explicit stub). -/
def retrieve_context (question : String) (space : RagSpace) : List Json :=
  [Json.obj [("source", Json.str "arango"), ("space_key", Json.str space.space_key),
             ("note", Json.str "Vector RAG retrieval not implemented yet."),
             ("question", Json.str (pyTake 160 question))]]

/-- Model of `LorekeeperAgentService._generate_answer`, parameterized by the gateway
invocation outcome: strip the content (falsy content reads as `""`) and
substitute the fixed placeholder when empty. -/
def generate_answer (gw_result : Except String LlmMsg) : Except String (String × Usage) :=
  match gw_result with
  | .error e => .error e
  | .ok m =>
      let a := pyStrip (pyOrS m.content "")
      .ok ((if a = "" then lorekeeperPlaceholder else a), m.usage)

/-- Model of `LorekeeperAgentService.ask`.  Explicit parameters stand for the
collaborators: `user_id` / `limit` come from the upserted user row,
`rag_space?` is the `get_rag_space` lookup, `gw_result` the gateway
invocation outcome (error = exception during generation), `now` the
timestamp; latency measurement is elided (stored as 0). -/
def ask (user_id : Nat) (limit : Int) (question : String) (rag_space? : Option RagSpace)
    (gw_result : Except String LlmMsg) (tenant_provider tenant_model : String)
    (now : String) (st : AskState) : AskState × AskResult :=
  let consumed := consume_daily_quota st.quota limit
  let quota_st := consumed.1
  let quota := consumed.2
  let space := rag_space?.getD defaultRagSpace
  let graph_plan := Json.obj
    [("graph_rag_reserved", Json.bool space.is_graph_enabled),
     ("namespace", Json.str space.graph_namespace),
     ("state", Json.str "reserved_not_implemented")]
  if quota.allowed then
    let rag_refs := retrieve_context question space
    match generate_answer gw_result with
    | .ok a =>
        let q : UserQueryRow :=
          ⟨user_id, question, some a.1, "ANSWERED", none, space.backend, space.space_key,
           space.mode, rag_refs, graph_plan, some now⟩
        let query_id := st.queries.length
        let run : AgentRunRow :=
          ⟨"Lorekeeper", some user_id, none, some query_id, tenant_provider, tenant_model,
           "lorekeeper-v1", a.2.input_tokens, a.2.output_tokens, a.2.total_tokens, some 0,
           "DONE", none, Json.obj [("rag_refs_count", Json.num (rag_refs.length : Int))]⟩
        ({ quota := quota_st, queries := st.queries ++ [q], runs := st.runs ++ [run] },
         ⟨user_id, query_id, "ANSWERED", some a.1, none, quota⟩)
    | .error exc =>
        let q : UserQueryRow :=
          ⟨user_id, question, none, "FAILED", some (pyTake 500 exc), space.backend,
           space.space_key, space.mode, rag_refs, graph_plan, some now⟩
        let query_id := st.queries.length
        let run : AgentRunRow :=
          ⟨"Lorekeeper", some user_id, none, some query_id, tenant_provider, tenant_model,
           "lorekeeper-v1", 0, 0, 0, none, "FAILED", some (pyTake 2000 exc),
           Json.obj [("rag_refs_count", Json.num (rag_refs.length : Int))]⟩
        ({ quota := quota_st, queries := st.queries ++ [q], runs := st.runs ++ [run] },
         ⟨user_id, query_id, "FAILED", none, some lorekeeperBusy, quota⟩)
  else
    let q : UserQueryRow :=
      ⟨user_id, question, none, "REJECTED", some "DAILY_LIMIT_REACHED", space.backend,
       space.space_key, space.mode, [], graph_plan, some now⟩
    let query_id := st.queries.length
    ({ quota := quota_st, queries := st.queries ++ [q], runs := st.runs },
     ⟨user_id, query_id, "REJECTED", none, some dailyLimitMsg, quota⟩)

/- ## Webhook Dispatcher (`LineWebhookService`) -/

/-- Model of `LineWebhookService._event_id`: the channel-supplied `webhookEventId`
when it is a non-empty string, else the SHA-256 of the canonically
serialized event (`json.dumps(event, sort_keys=True, ensure_ascii=False)`). -/
def eventIdOf (event : Json) : String :=
  match jsonGet event "webhookEventId" with
  | some (.str s) => if s = "" then sha256Hex (jsonDumpsSorted event) else s
  | _ => sha256Hex (jsonDumpsSorted event)

/-- Modelled from the spec: `LineDeliveryRepo.register_webhook_event` is
called by the webhook service but its definition is not among the provided
source files.  Per the spec it registers the derived event id in the
WebhookEvent ledger as an insert-if-absent and reports whether the event was
newly inserted — "registration is the dedup gate (insert-if-absent)". -/
def register_webhook_event (ledger : List String) (event_id : String) :
    List String × Bool :=
  if event_id ∈ ledger then (ledger, false) else (event_id :: ledger, true)

/-- The event loop of `handle_body`: register each event, counting it as
processed when newly inserted and as dedup-skipped otherwise.  The per-type
routing (`follow` / `unfollow` / `message`) touches users and the messaging
channel but never the WebhookEvent ledger or the counters, so it is elided
here. -/
def handleEvents (ledger : List String) : List Json → List String × Nat × Nat
  | [] => (ledger, 0, 0)
  | e :: rest =>
      let reg := register_webhook_event ledger (eventIdOf e)
      let s := handleEvents reg.1 rest
      if reg.2 then (s.1, s.2.1 + 1, s.2.2) else (s.1, s.2.1, s.2.2 + 1)

/-- The response dictionary of `handle_body`. -/
structure WebhookResult where
  ok : Bool
  processed : Nat
  dedup_skipped : Nat
  total_events : Nat
deriving Repr, DecidableEq

/-- Model of `LineWebhookService.handle_body` over the ledger state. -/
def handle_body (ledger : List String) (events : List Json) :
    List String × WebhookResult :=
  let s := handleEvents ledger events
  (s.1, ⟨true, s.2.1, s.2.2, events.length⟩)

/- ## Concrete fixtures for witnesses and counterexamples -/

/-- Concrete rows for the C2 witness. -/
def c2Canon : CanonRecord :=
  ⟨"rss:bbc:sha256:k1", 1, "rss:bbc", "https://x/1", "T", "S", none, "t1", "en", "k1",
   "", Json.obj [], "RAW"⟩

def c2Canon2 : CanonRecord :=
  ⟨"rss:bbc:sha256:k1", 1, "rss:bbc", "https://x/1", "T", "S", none, "t2", "en", "k1",
   "", Json.obj [], "RAW"⟩

def c2Sources : List SourceRow := [⟨1, "rss:bbc", true⟩]

def c2Table : RawTable := ⟨[rawRowOf 7 c2Canon], 8⟩

/-- The spec's concrete example item: `guid="g1"`, `url="https://x/1"`,
`title="T"`, no `link`, no dates. -/
def exampleItem : RssItem :=
  { guid := some "g1", url := some "https://x/1", title := some "T" }

/-- A stored row whose summary and URL are both empty. -/
def c4EmptySource : PushSource := ⟨3, "", "", "", none, "", ""⟩

/-- Tenant/cache fixture for the C8 witness. -/
def c8Cfg : TenantConfig := { tenant_id := "default", api_key := some "sk-test" }

def c8Cached : BuiltModel := .make "openai" "gpt-4o-mini" (some "sk-test") none none [] []

def c8Key : String :=
  cache_key "default" "openai" "gpt-4o-mini" none (some "sk-test") [("temperature", "0.2")]

def c8Gw : Gateway :=
  { tenants := [("default", c8Cfg)], model_cache := [(c8Key, c8Cached)] }

/-- Gateway fixtures for the C9 witness. -/
def c9GwEmpty : Gateway := { tenants := [] }

def c9GwWeird : Gateway := { tenants := [("t1", { tenant_id := "t1", provider := "weird" })] }

def c9GwNoKey : Gateway := { tenants := [("t1", { tenant_id := "t1" })] }

def c9GwOllama : Gateway := { tenants := [("t1", { tenant_id := "t1", provider := "ollama" })] }

def c9Built : BuiltModel :=
  .make "ollama" "gpt-4o-mini" none none none ["tenant:t1", "provider:ollama"]
    [("temperature", "0.2")]

def c9Gw2 : Gateway :=
  { c9GwOllama with model_cache :=
      [(cache_key "t1" "ollama" "gpt-4o-mini" none none [("temperature", "0.2")], c9Built)] }

/- ## Theorems -/

/- ### Webhook dedup (C6) -/

theorem handleEvents_counts (ledger : List String) (events : List Json) :
    (handleEvents ledger events).2.1 + (handleEvents ledger events).2.2 = events.length := by
  induction events generalizing ledger with
  | nil => simp [handleEvents]
  | cons e rest ih =>
      simp only [handleEvents]
      by_cases h : (register_webhook_event ledger (eventIdOf e)).2 <;>
        simp only [h, if_true, if_false, Bool.false_eq_true, List.length_cons] <;>
        · have := ih (register_webhook_event ledger (eventIdOf e)).1
          omega

theorem handleEvents_ledger_mono (ledger : List String) (events : List Json)
    (x : String) (hx : x ∈ ledger) : x ∈ (handleEvents ledger events).1 := by
  induction events generalizing ledger with
  | nil => simpa [handleEvents] using hx
  | cons e rest ih =>
      simp only [handleEvents]
      by_cases h : (register_webhook_event ledger (eventIdOf e)).2 <;>
        simp only [h, if_true, if_false, Bool.false_eq_true] <;>
        · apply ih
          unfold register_webhook_event
          split <;> simp [hx]

theorem handleEvents_registers (ledger : List String) (events : List Json) :
    ∀ e ∈ events, eventIdOf e ∈ (handleEvents ledger events).1 := by
  induction events generalizing ledger with
  | nil => intro e he; cases he
  | cons e0 rest ih =>
      intro e he
      rcases List.mem_cons.mp he with he | he
      · subst he
        have hmem : eventIdOf e ∈ (register_webhook_event ledger (eventIdOf e)).1 := by
          unfold register_webhook_event
          split
          · simpa using by assumption
          · simp
        simp only [handleEvents]
        by_cases h : (register_webhook_event ledger (eventIdOf e)).2 <;>
          simp only [h, if_true, if_false, Bool.false_eq_true] <;>
          exact handleEvents_ledger_mono _ rest _ hmem
      · simp only [handleEvents]
        by_cases h : (register_webhook_event ledger (eventIdOf e0)).2 <;>
          simp only [h, if_true, if_false, Bool.false_eq_true] <;>
          exact ih _ e he

theorem handleEvents_all_seen (ledger : List String) (events : List Json)
    (hseen : ∀ e ∈ events, eventIdOf e ∈ ledger) :
    handleEvents ledger events = (ledger, 0, events.length) := by
  induction events with
  | nil => simp [handleEvents]
  | cons e rest ih =>
      have he : eventIdOf e ∈ ledger := hseen e (List.mem_cons_self e rest)
      have hreg : register_webhook_event ledger (eventIdOf e) = (ledger, false) := by
        simp [register_webhook_event, he]
      simp only [handleEvents, hreg]
      rw [ih (fun e2 he2 => hseen e2 (List.mem_cons_of_mem e he2))]
      simp

/-- C6 — Webhook replay idempotence: after a batch has been handled once
(from any ledger state), handling the identical batch again yields
`processed = 0` and `dedup_skipped = total_events`; in every call each event
is counted exactly once, so `processed + dedup_skipped = total_events`. -/
theorem webhook_replay_idempotent (ledger : List String) (events : List Json) :
    (handle_body ledger events).2.processed + (handle_body ledger events).2.dedup_skipped =
      (handle_body ledger events).2.total_events ∧
    (handle_body (handle_body ledger events).1 events).2.processed = 0 ∧
    (handle_body (handle_body ledger events).1 events).2.dedup_skipped = events.length ∧
    (handle_body (handle_body ledger events).1 events).2.processed +
      (handle_body (handle_body ledger events).1 events).2.dedup_skipped =
      (handle_body (handle_body ledger events).1 events).2.total_events := by
  have hcount := handleEvents_counts ledger events
  have hsecond : handleEvents (handleEvents ledger events).1 events =
      ((handleEvents ledger events).1, 0, events.length) :=
    handleEvents_all_seen _ _ (handleEvents_registers ledger events)
  refine ⟨?_, ?_, ?_, ?_⟩ <;> simp [handle_body, hsecond, hcount]

/- ### Quota ledger (C1, C7) -/

theorem quotaStateAfter_spec (L : Int) (hL : 1 ≤ L) (n : Nat) (hn : n ≠ 0) :
    quotaStateAfter L n = some ⟨min (n : Int) L, L⟩ := by
  induction n with
  | zero => cases hn rfl
  | succ k ih =>
      have hstep : quotaStateAfter L (k + 1) = (consume_daily_quota (quotaStateAfter L k) L).1 :=
        rfl
      rcases Nat.eq_zero_or_pos k with hk | hk
      · subst hk
        rw [hstep]
        have h0 : quotaStateAfter L 0 = none := rfl
        rw [h0]
        have h1 : (consume_daily_quota none L).1 = some ⟨1, L⟩ := rfl
        rw [h1]
        simp only [Option.some.injEq, QuotaRow.mk.injEq]
        exact ⟨by omega, trivial⟩
      · rw [hstep, ih (by omega)]
        by_cases hlt : ((k : Nat) : Int) ⊓ L < L
        · have h1 : (consume_daily_quota (some ⟨((k : Nat) : Int) ⊓ L, L⟩) L).1 =
              some ⟨((k : Nat) : Int) ⊓ L + 1, L⟩ := by
            simp [consume_daily_quota, quotaUpsert, hlt]
          rw [h1]
          simp only [Option.some.injEq, QuotaRow.mk.injEq]
          exact ⟨by omega, trivial⟩
        · have h1 : (consume_daily_quota (some ⟨((k : Nat) : Int) ⊓ L, L⟩) L).1 =
              some ⟨((k : Nat) : Int) ⊓ L, L⟩ := by
            simp [consume_daily_quota, quotaUpsert, hlt]
          rw [h1]
          simp only [Option.some.injEq, QuotaRow.mk.injEq]
          exact ⟨by omega, trivial⟩

theorem quotaAllowedCount_spec (L : Int) (hL : 1 ≤ L) (n : Nat) :
    quotaAllowedCount L n = min n L.toNat := by
  induction n with
  | zero => simp [quotaAllowedCount]
  | succ k ih =>
      rcases Nat.eq_zero_or_pos k with hk | hk
      · subst hk
        have hm : min 1 L.toNat = 1 := by omega
        simp [quotaAllowedCount, quotaStateAfter, consume_daily_quota, quotaUpsert,
              consumeCore, hm]
      · rw [quotaAllowedCount, ih, quotaStateAfter_spec L hL k (by omega)]
        by_cases hlt : min ((k : Nat) : Int) L < L
        · have h1 : (k : Nat) < L.toNat := by omega
          simp [consume_daily_quota, quotaUpsert, consumeCore, hlt]
          omega
        · have h1 : ¬ ((k : Nat) < L.toNat) := by omega
          simp [consume_daily_quota, quotaUpsert, consumeCore, hlt]
          omega

/-- C1 (amended) — Quota safety for positive limits: for every limit `L ≥ 1`
and every number `n` of `consume_daily_quota` calls for the same
(user, day) starting from no usage row, exactly `min n L` calls return
`allowed = true`, and the stored `used_count` never exceeds `limit_count` at
any point of the run.  (Each call's conditional increment is one atomic SQL
statement, so any concurrent interleaving of the calls is some sequential
order of these increments, which this run models.) -/
theorem quota_safety_min_allowed (L : Int) (n : Nat) (hL : 1 ≤ L) :
    quotaAllowedCount L n = min n L.toNat ∧
    ∀ k : Nat, ∀ r : QuotaRow, quotaStateAfter L k = some r → r.used ≤ r.limit := by
  refine ⟨quotaAllowedCount_spec L hL n, ?_⟩
  intro k r hk
  cases k with
  | zero => simp [quotaStateAfter] at hk
  | succ k2 =>
      rw [quotaStateAfter_spec L hL (k2 + 1) (by omega)] at hk
      have : r = ⟨min (((k2 + 1 : Nat)) : Int) L, L⟩ := by
        injection hk with h; exact h.symm
      subst this
      simp only
      omega

/-- Witness for C1 (amended): with limit 2, five calls grant exactly 2. -/
theorem quota_safety_min_allowed_witness :
    (1 : Int) ≤ 2 ∧ quotaAllowedCount 2 5 = min 5 ((2 : Int).toNat) :=
  ⟨by decide, (quota_safety_min_allowed 2 5 (by decide)).1⟩

/-- C1 counterexample — the claim fails for limit `L = 0`: the very first
call's `INSERT` is unconditional, so it returns `allowed = true`
(1 call allowed, but `min 1 0 = 0`) and stores `used_count = 1 >
limit_count = 0`. -/
theorem quota_safety_limit_zero_cex :
    (consume_daily_quota none 0).2.allowed = true ∧
    quotaStateAfter 0 1 = some ⟨1, 0⟩ ∧
    quotaAllowedCount 0 1 = 1 ∧
    min 1 ((0 : Int).toNat) = 0 ∧
    ¬ ((1 : Int) ≤ 0) := by decide

/-- C7 — Quota denial reporting: when the conditional increment affects no
row (the stored row is already at its limit), the function returns
`allowed = false` with the counters found by the read-back; when even the
read-back finds no row, it returns the best-effort denial
`used_count = 0`, `limit_count = L`, `remaining = L` from the
caller-supplied limit. -/
theorem quota_denial_reporting (r : QuotaRow) (lookup? : Option QuotaRow) (L : Int)
    (hfull : r.limit ≤ r.used) :
    (consume_daily_quota_race (some r) lookup? L).2.allowed = false ∧
    (∀ r2, lookup? = some r2 →
       (consume_daily_quota_race (some r) lookup? L).2 =
         ⟨false, r2.used, r2.limit, max (r2.limit - r2.used) 0⟩) ∧
    (lookup? = none →
       (consume_daily_quota_race (some r) lookup? L).2 = ⟨false, 0, L, L⟩) := by
  have hnot : ¬ (r.used < r.limit) := by omega
  refine ⟨?_, ?_, ?_⟩
  · cases lookup? <;> simp [consume_daily_quota_race, quotaUpsert, hnot, consumeCore]
  · intro r2 h2
    subst h2
    simp [consume_daily_quota_race, quotaUpsert, hnot, consumeCore]
  · intro h2
    subst h2
    simp [consume_daily_quota_race, quotaUpsert, hnot, consumeCore]

/-- Witness for C7: a row at its limit with the read-back seeing the same
row, and with the read-back seeing nothing. -/
theorem quota_denial_reporting_witness :
    ((5 : Int) ≤ 5 ∧
      (consume_daily_quota_race (some ⟨5, 5⟩) (some ⟨5, 5⟩) 5).2 = ⟨false, 5, 5, 0⟩) ∧
    (consume_daily_quota_race (some ⟨5, 5⟩) none 7).2 = ⟨false, 0, 7, 7⟩ :=
  ⟨⟨by decide, by
      have h := (quota_denial_reporting ⟨5, 5⟩ (some ⟨5, 5⟩) 5 (by decide)).2.1 ⟨5, 5⟩ rfl
      simpa using h⟩,
   by
      have h := (quota_denial_reporting ⟨5, 5⟩ none 7 (by decide)).2.2 rfl
      simpa using h⟩

/- ### Item store (C2) -/

/-- C2 — Idempotent ingestion: for a known enabled source, the first
`ingest_raw_item` call for a dedup key inserts and reports `inserted = true`;
every later call with the same dedup key reports `inserted = false`, returns
the existing row id, and updates only the `fetched_at` column of the row
holding that dedup key: every other stored column of every row is unchanged,
and the row (hence the dedup key) persists. -/
theorem ingest_idempotent (sources : List SourceRow) (tbl : RawTable) (sid : Int)
    (skey : String) (d : CanonRecord) (hsrc : validate_source sources sid skey = true) :
    (findRaw tbl.rows d.dedup_key = none →
       (ingest_raw_item sources tbl sid skey d).2.inserted = true ∧
       (ingest_raw_item sources tbl sid skey d).2.source_valid = true ∧
       (ingest_raw_item sources tbl sid skey d).1.rows =
         tbl.rows ++ [rawRowOf tbl.next_id d]) ∧
    (∀ r0, findRaw tbl.rows d.dedup_key = some r0 →
       (ingest_raw_item sources tbl sid skey d).2.inserted = false ∧
       (ingest_raw_item sources tbl sid skey d).2.source_valid = true ∧
       (ingest_raw_item sources tbl sid skey d).2.raw_item_id = some r0.id ∧
       (ingest_raw_item sources tbl sid skey d).1.rows.length = tbl.rows.length ∧
       (∀ (i : Nat) (h1 : i < tbl.rows.length)
          (h2 : i < (ingest_raw_item sources tbl sid skey d).1.rows.length),
          ((ingest_raw_item sources tbl sid skey d).1.rows[i]).item_id = (tbl.rows[i]).item_id ∧
          ((ingest_raw_item sources tbl sid skey d).1.rows[i]).url = (tbl.rows[i]).url ∧
          ((ingest_raw_item sources tbl sid skey d).1.rows[i]).title = (tbl.rows[i]).title ∧
          ((ingest_raw_item sources tbl sid skey d).1.rows[i]).summary = (tbl.rows[i]).summary ∧
          ((ingest_raw_item sources tbl sid skey d).1.rows[i]).published_at =
            (tbl.rows[i]).published_at ∧
          ((ingest_raw_item sources tbl sid skey d).1.rows[i]).lang = (tbl.rows[i]).lang ∧
          ((ingest_raw_item sources tbl sid skey d).1.rows[i]).dedup_key =
            (tbl.rows[i]).dedup_key ∧
          ((ingest_raw_item sources tbl sid skey d).1.rows[i]).rights = (tbl.rows[i]).rights ∧
          ((ingest_raw_item sources tbl sid skey d).1.rows[i]).raw = (tbl.rows[i]).raw ∧
          ((ingest_raw_item sources tbl sid skey d).1.rows[i]).status = (tbl.rows[i]).status ∧
          ((ingest_raw_item sources tbl sid skey d).1.rows[i]).id = (tbl.rows[i]).id ∧
          ((ingest_raw_item sources tbl sid skey d).1.rows[i]).source_id =
            (tbl.rows[i]).source_id ∧
          ((ingest_raw_item sources tbl sid skey d).1.rows[i]).source_key =
            (tbl.rows[i]).source_key ∧
          ((ingest_raw_item sources tbl sid skey d).1.rows[i]).fetched_at =
            (if (tbl.rows[i]).dedup_key = d.dedup_key then d.fetched_at
             else (tbl.rows[i]).fetched_at)) ∧
       findRaw (ingest_raw_item sources tbl sid skey d).1.rows d.dedup_key ≠ none) := by
  constructor
  · intro hnone
    simp only [ingest_raw_item, hsrc, if_true, upsert_raw_item, hnone]
    exact ⟨by trivial, by trivial, by trivial⟩
  · intro r0 hsome
    simp only [ingest_raw_item, hsrc, if_true, upsert_raw_item, hsome]
    refine ⟨by trivial, by trivial, by trivial, by simp, ?_, ?_⟩
    · intro i h1 h2
      have hlen : i <
          (tbl.rows.map
            (fun row => if row.dedup_key == d.dedup_key
                        then { row with fetched_at := d.fetched_at } else row)).length := by
        simpa using h1
      have hmap :
          (tbl.rows.map
            (fun row => if row.dedup_key == d.dedup_key
                        then { row with fetched_at := d.fetched_at } else row))[i] =
          (fun row => if row.dedup_key == d.dedup_key
                      then { row with fetched_at := d.fetched_at } else row) (tbl.rows[i]) :=
        List.getElem_map _
      simp only [hmap]
      by_cases hkey : (tbl.rows[i]).dedup_key = d.dedup_key
      · simp [hkey]
      · simp [hkey]
    · rw [findRaw] at hsome
      have hmem := List.mem_of_find?_eq_some hsome
      have hpred0 := List.find?_some hsome
      have hpred : (r0.dedup_key == d.dedup_key) = true := hpred0
      have hmem2 : ({ r0 with fetched_at := d.fetched_at } : RawItemRow) ∈
          tbl.rows.map
            (fun row => if row.dedup_key == d.dedup_key
                        then { row with fetched_at := d.fetched_at } else row) := by
        have := List.mem_map_of_mem
          (fun row => if row.dedup_key == d.dedup_key
                      then { row with fetched_at := d.fetched_at } else row) hmem
        simpa [hpred] using this
      have : (findRaw
          (tbl.rows.map
            (fun row => if row.dedup_key == d.dedup_key
                        then { row with fetched_at := d.fetched_at } else row))
          d.dedup_key).isSome := by
        rw [findRaw, List.find?_isSome]
        exact ⟨_, hmem2, hpred⟩
      intro hcontra
      rw [findRaw] at hcontra
      rw [findRaw, hcontra] at this
      cases this

/-- Witness for C2: re-ingesting the same dedup key into a table already
holding it reports `inserted = false` with the stored row's id, and the row's
`fetched_at` becomes the new timestamp while its title is untouched. -/
theorem ingest_idempotent_witness :
    validate_source c2Sources 1 "rss:bbc" = true ∧
    (ingest_raw_item c2Sources c2Table 1 "rss:bbc" c2Canon2).2.inserted = false ∧
    (ingest_raw_item c2Sources c2Table 1 "rss:bbc" c2Canon2).2.raw_item_id = some 7 := by
  have h := (ingest_idempotent c2Sources c2Table 1 "rss:bbc" c2Canon2 rfl).2
      (rawRowOf 7 c2Canon) rfl
  exact ⟨rfl, h.1, h.2.2.1⟩

/- ### Dedup-key contract (C3) -/

/-- C3 — Dedup-key contract: for every ingest request the dedup key is the
SHA-256 hex digest of
`source_key || "||" || (guid or "") || "||" || (link or url or "") || "||" ||
(title or "") || "||" || ((isoDate or pubDate) or "")`; it does not depend on
the capture timestamp (the only non-input the canonicalizer touches — there
is no other environment access); and on the spec's example it equals
`sha256("rss:bbc||g1||https://x/1||T||")`. -/
theorem dedup_key_contract :
    (∀ (src : SourceCtx) (item : RssItem) (now : String),
       (canonicalize src item now).dedup_key =
         sha256Hex (src.source_key ++ "||" ++ pyStr item.guid ++ "||" ++
           pyStr (pyOrOpt item.link item.url) ++ "||" ++ pyStr item.title ++ "||" ++
           pyStr (pyOrOpt item.isoDate item.pubDate))) ∧
    (∀ (src : SourceCtx) (item : RssItem) (now1 now2 : String),
       (canonicalize src item now1).dedup_key = (canonicalize src item now2).dedup_key) ∧
    ((canonicalize ⟨1, "rss:bbc"⟩ exampleItem "2024-06-01T00:00:00+00:00").dedup_key =
       sha256Hex "rss:bbc||g1||https://x/1||T||") := by
  refine ⟨fun src item now => rfl, fun src item now1 now2 => rfl, ?_⟩
  show sha256Hex _ = sha256Hex _
  congr 1

/- ### Dispatch fallback (C4) -/

theorem pyStripList_eq_nil_iff (l : List Char) :
    pyStripList l = [] ↔ ∀ c ∈ l, isPySpace c = true := by
  unfold pyStripList
  constructor
  · intro h c hc
    have h2 : (l.dropWhile isPySpace).reverse.dropWhile isPySpace = [] :=
      List.reverse_eq_nil_iff.mp h
    rw [List.dropWhile_eq_nil_iff] at h2
    have hsplit := List.takeWhile_append_dropWhile (p := isPySpace) (l := l)
    rcases List.mem_append.mp (hsplit ▸ hc) with hmem | hmem
    · exact List.mem_takeWhile_imp hmem
    · exact h2 c (List.mem_reverse.mpr hmem)
  · intro h
    have h1 : l.dropWhile isPySpace = [] :=
      List.dropWhile_eq_nil_iff.mpr h
    simp [h1]

theorem pyStrip_eq_empty_iff (s : String) :
    pyStrip s = "" ↔ ∀ c ∈ s.data, isPySpace c = true := by
  rw [pyStrip, String.ext_iff]
  exact pyStripList_eq_nil_iff s.data

/-- C4 (amended) — Dispatch fallback guarantee: when message generation
raises, `create_push_and_deliver` still returns a result (never an error for
an existing raw item): the result carries a `delivery_status` among
PENDING/SENT/FAILED, its preview is exactly the templated fallback
`strip(summary + "\n\n" + url)` built only from the stored summary and URL
(non-empty whenever the stored summary or URL contains a non-whitespace
character — for a degenerate stored row whose summary and URL are both
whitespace-free of content the preview is empty, see the counterexample),
and the text actually pushed to the channel is the fallback truncated to
5000 characters. -/
theorem dispatch_fallback (tp tm : String) (uid rid : Nat) (luid : String) (src : PushSource)
    (e : String) (send : Bool) (token : Option String) (channel : String → PushResp)
    (now : String) (st : BardState) :
    ∃ st2 res sentText,
      create_push_and_deliver tp tm uid rid luid (some src) (.error e) send token channel now st
        = .ok (st2, res, sentText) ∧
      (res.delivery_status = "PENDING" ∨ res.delivery_status = "SENT" ∨
        res.delivery_status = "FAILED") ∧
      res.message_preview =
        pyStrip (pyOrS src.translated_summary src.source_summary ++ "\n\n" ++ src.source_url) ∧
      ((∃ c ∈ (pyOrS src.translated_summary src.source_summary ++ src.source_url).data,
          isPySpace c = false) → res.message_preview ≠ "") ∧
      (∀ t, sentText = some t → t.data.length ≤ 5000) ∧
      (send = true → pyTruthy token = true →
        sentText = some (pyTake 5000 res.message_preview)) := by
  simp only [create_push_and_deliver, push_to_line]
  refine ⟨_, _, _, rfl, ?_, rfl, ?_, ?_, ?_⟩
  · split_ifs <;> simp
  · rintro ⟨c, hc, hcs⟩ hempty
    rw [pyStrip_eq_empty_iff] at hempty
    have hc2 : c ∈ (pyOrS src.translated_summary src.source_summary ++ "\n\n" ++
        src.source_url).data := by
      rw [String.data_append, String.data_append]
      rw [String.data_append] at hc
      rcases List.mem_append.mp hc with h | h
      · exact List.mem_append.mpr (Or.inl (List.mem_append.mpr (Or.inl h)))
      · exact List.mem_append.mpr (Or.inr h)
    have := hempty c hc2
    rw [this] at hcs
    cases hcs
  · intro t ht
    split_ifs at ht
    all_goals
      first
        | exact Option.noConfusion ht
        | · injection ht with hinj
            subst hinj
            simp only [pyTake]
            have := List.length_take 5000
              (pyStrip (pyOrS src.translated_summary src.source_summary ++ "\n\n" ++
                src.source_url)).data
            omega
  · intro hsend htok
    simp [hsend, htok]

/-- C4 counterexample — with generation raising on every call and a stored
row whose summary and URL are empty, the returned `message_preview` is the
empty string, refuting "a non-empty preview" as universally stated. -/
theorem dispatch_fallback_cex :
    ((create_push_and_deliver "openai" "gpt-4o-mini" 1 3 "U1" (some c4EmptySource)
        (Except.error "boom") false none (fun _ => ⟨false, none, none⟩) "t0"
        ⟨[], []⟩).toOption.map (fun x => x.2.1.message_preview)) = some "" := by
  rfl

/-- Witness for C4 (amended): a real summary/URL, generation failing, send
off — the preview is the stripped template and non-empty. -/
theorem dispatch_fallback_witness :
    (∃ c ∈ (pyOrS "" "Summary." ++ "https://x/1").data, isPySpace c = false) ∧
    (∃ st2 res sentText,
      create_push_and_deliver "openai" "gpt-4o-mini" 1 3 "U1"
          (some ⟨3, "T", "Summary.", "https://x/1", none, "", ""⟩)
          (Except.error "boom") false none (fun _ => ⟨false, none, none⟩) "t0" ⟨[], []⟩
        = .ok (st2, res, sentText) ∧
      (res.delivery_status = "PENDING" ∨ res.delivery_status = "SENT" ∨
        res.delivery_status = "FAILED") ∧
      res.message_preview = pyStrip (pyOrS "" "Summary." ++ "\n\n" ++ "https://x/1") ∧
      ((∃ c ∈ (pyOrS "" "Summary." ++ "https://x/1").data, isPySpace c = false) →
        res.message_preview ≠ "") ∧
      (∀ t, sentText = some t → t.data.length ≤ 5000) ∧
      (false = true → pyTruthy none = true →
        sentText = some (pyTake 5000 res.message_preview))) := by
  constructor
  · exact ⟨'S', by decide, by decide⟩
  · exact dispatch_fallback "openai" "gpt-4o-mini" 1 3 "U1"
      ⟨3, "T", "Summary.", "https://x/1", none, "", ""⟩ "boom" false none
      (fun _ => ⟨false, none, none⟩) "t0" ⟨[], []⟩

/- ### Lorekeeper failure path (C5) and non-empty answers (C10) -/

theorem pyOrS_empty_right (c : String) : pyOrS c "" = c := by
  by_cases h : c = "" <;> simp [pyOrS, h]

theorem consume_allowed_increments (row? : Option QuotaRow) (L : Int)
    (h : (consume_daily_quota row? L).2.allowed = true) :
    usedOf (consume_daily_quota row? L).1 = usedOf row? + 1 := by
  cases row? with
  | none => simp [consume_daily_quota, quotaUpsert, usedOf, consumeCore]
  | some r =>
      by_cases hlt : r.used < r.limit
      · simp [consume_daily_quota, quotaUpsert, hlt, usedOf, consumeCore]
      · simp [consume_daily_quota, quotaUpsert, hlt, usedOf, consumeCore] at h

/-- C5 — Q&A failure path: an `ask` call whose generation step raises still
consumes exactly one quota unit (the stored `used_count` after the call is
the prior value plus one, and no other quota write occurs in the call, so it
is never refunded), appends exactly one FAILED `UserQuery` carrying the
exception text truncated to 500 characters and no answer, appends exactly
one FAILED `AgentRun` carrying the exception text truncated to 2000
characters, and returns the generic busy message — the returned value is the
same whatever the exception text, so the text never reaches the end user. -/
theorem ask_failure_path (user_id : Nat) (limit : Int) (question : String)
    (space? : Option RagSpace) (e : String) (tp tm now : String) (st : AskState)
    (hallowed : (consume_daily_quota st.quota limit).2.allowed = true) :
    usedOf (ask user_id limit question space? (.error e) tp tm now st).1.quota =
      usedOf st.quota + 1 ∧
    (∃ q, (ask user_id limit question space? (.error e) tp tm now st).1.queries =
        st.queries ++ [q] ∧ q.status = "FAILED" ∧
        q.rejected_reason = some (pyTake 500 e) ∧ q.answer_text = none) ∧
    (∃ r, (ask user_id limit question space? (.error e) tp tm now st).1.runs =
        st.runs ++ [r] ∧ r.status = "FAILED" ∧
        r.error_message = some (pyTake 2000 e)) ∧
    (ask user_id limit question space? (.error e) tp tm now st).2.status = "FAILED" ∧
    (ask user_id limit question space? (.error e) tp tm now st).2.answer = none ∧
    (ask user_id limit question space? (.error e) tp tm now st).2.rejected_reason =
      some lorekeeperBusy ∧
    (∀ e2 : String, (ask user_id limit question space? (.error e2) tp tm now st).2 =
      (ask user_id limit question space? (.error e) tp tm now st).2) := by
  have hq := consume_allowed_increments st.quota limit hallowed
  refine ⟨?_, ?_, ?_, ?_, ?_, ?_, ?_⟩
  · simpa [ask, generate_answer, hallowed] using hq
  · simp only [ask, generate_answer, hallowed, if_true]
    exact ⟨_, rfl, rfl, rfl, rfl⟩
  · simp only [ask, generate_answer, hallowed, if_true]
    exact ⟨_, rfl, rfl, rfl⟩
  · simp [ask, generate_answer, hallowed]
  · simp [ask, generate_answer, hallowed]
  · simp [ask, generate_answer, hallowed]
  · intro e2
    simp [ask, generate_answer, hallowed]

/-- Witness for C5: a failing generation against a fresh quota day. -/
theorem ask_failure_path_witness :
    (consume_daily_quota (none : Option QuotaRow) 5).2.allowed = true ∧
    usedOf (ask 1 5 "q?" none (.error "boom") "openai" "gpt-4o-mini" "t0"
        ⟨none, [], []⟩).1.quota = usedOf (none : Option QuotaRow) + 1 ∧
    (ask 1 5 "q?" none (.error "boom") "openai" "gpt-4o-mini" "t0"
        ⟨none, [], []⟩).2.rejected_reason = some lorekeeperBusy :=
  ⟨by decide,
   (ask_failure_path 1 5 "q?" none "boom" "openai" "gpt-4o-mini" "t0" ⟨none, [], []⟩
      (by decide)).1,
   (ask_failure_path 1 5 "q?" none "boom" "openai" "gpt-4o-mini" "t0" ⟨none, [], []⟩
      (by decide)).2.2.2.2.2.1⟩

/-- C10 — Non-empty answers: whenever `ask` returns with status ANSWERED,
the returned answer and the persisted `answer_text` are the same non-empty
string; and when the backend content is empty or whitespace-only (its strip
is empty) the answer is the fixed placeholder sentence. -/
theorem ask_answered_nonempty (user_id : Nat) (limit : Int) (question : String)
    (space? : Option RagSpace) (gw_result : Except String LlmMsg) (tp tm now : String)
    (st : AskState) :
    ((ask user_id limit question space? gw_result tp tm now st).2.status = "ANSWERED" →
       ∃ a, (ask user_id limit question space? gw_result tp tm now st).2.answer = some a ∧
         a ≠ "" ∧
         ∃ q, (ask user_id limit question space? gw_result tp tm now st).1.queries =
           st.queries ++ [q] ∧ q.status = "ANSWERED" ∧ q.answer_text = some a) ∧
    (∀ m, gw_result = .ok m → pyStrip m.content = "" →
       (consume_daily_quota st.quota limit).2.allowed = true →
       (ask user_id limit question space? gw_result tp tm now st).2.answer =
         some lorekeeperPlaceholder) := by
  by_cases hallowed : (consume_daily_quota st.quota limit).2.allowed = true
  · cases gw_result with
    | error e =>
        constructor
        · intro hst
          simp [ask, generate_answer, hallowed] at hst
        · intro m hm
          cases hm
    | ok m =>
        constructor
        · intro hst
          by_cases hempty : pyStrip (pyOrS m.content "") = ""
          · refine ⟨lorekeeperPlaceholder, ?_, ?_, ?_⟩
            · simp [ask, generate_answer, hallowed, hempty]
            · decide
            · simp only [ask, generate_answer, hallowed, if_true]
              refine ⟨_, rfl, rfl, ?_⟩
              simp [hempty]
          · refine ⟨pyStrip (pyOrS m.content ""), ?_, hempty, ?_⟩
            · simp [ask, generate_answer, hallowed, hempty]
            · simp only [ask, generate_answer, hallowed, if_true]
              refine ⟨_, rfl, rfl, ?_⟩
              simp [hempty]
        · intro m2 hm hstrip _
          have hm2 : m2 = m := by injection hm with h; exact h.symm
          subst hm2
          have hempty : pyStrip (pyOrS m2.content "") = "" := by
            rw [pyOrS_empty_right]
            exact hstrip
          simp [ask, generate_answer, hallowed, hempty]
  · have hfalse : (consume_daily_quota st.quota limit).2.allowed = false := by
      revert hallowed
      cases (consume_daily_quota st.quota limit).2.allowed <;> simp
    constructor
    · intro hst
      simp [ask, hfalse] at hst
    · intro m hm hstrip hcontra
      rw [hcontra] at hfalse
      cases hfalse

/-- Witness for C10: a whitespace-only backend answer yields the placeholder,
which is the non-empty persisted and returned answer. -/
theorem ask_answered_nonempty_witness :
    ((ask 1 5 "q?" none (.ok ⟨"  ", zeroUsage⟩) "openai" "gpt-4o-mini" "t0"
        ⟨none, [], []⟩).2.status = "ANSWERED") ∧
    ((ask 1 5 "q?" none (.ok ⟨"  ", zeroUsage⟩) "openai" "gpt-4o-mini" "t0"
        ⟨none, [], []⟩).2.answer = some lorekeeperPlaceholder) ∧
    (∃ a, (ask 1 5 "q?" none (.ok ⟨"  ", zeroUsage⟩) "openai" "gpt-4o-mini" "t0"
        ⟨none, [], []⟩).2.answer = some a ∧ a ≠ "" ∧
      ∃ q, (ask 1 5 "q?" none (.ok ⟨"  ", zeroUsage⟩) "openai" "gpt-4o-mini" "t0"
          ⟨none, [], []⟩).1.queries = [] ++ [q] ∧ q.status = "ANSWERED" ∧
        q.answer_text = some a) := by
  have h := ask_answered_nonempty 1 5 "q?" none (.ok ⟨"  ", zeroUsage⟩) "openai"
    "gpt-4o-mini" "t0" ⟨none, [], []⟩
  refine ⟨by decide, h.2 ⟨"  ", zeroUsage⟩ rfl (by decide) (by decide), h.1 (by decide)⟩

/- ### Gateway cache-key discipline (C8) -/

/-- C8 — Gateway cache-key discipline: the model-cache key computed for a
call depends only on the tenant id, the effective provider, model and
base-url, the presence of a resolved api key, and the tenant's
`default_params` — the per-call parameter overrides never participate, so
two calls for the same tenant differing only in parameter overrides (e.g.
temperature) compute the same key; and on a cache hit the gateway returns
the cached handle re-parameterized via `bind` with the merged per-call
parameters instead of rebuilding it (leaving the cache untouched). -/
theorem gateway_cache_key_discipline (gw : Gateway) (tid : String) (ov : Overrides) :
    (∀ ov2 : Overrides, ov2.provider = ov.provider → ov2.model = ov.model →
       ov2.base_url = ov.base_url → ov2.api_key = ov.api_key →
       gw_cache_key_of gw tid ov2 = gw_cache_key_of gw tid ov) ∧
    (∀ p : List (String × String),
       gw_cache_key_of gw tid { ov with params := p } = gw_cache_key_of gw tid ov) ∧
    (∀ cfg kv, get_tenant gw tid = .ok cfg → gw.enable_model_cache = true →
       gw_cache_key_of gw tid ov = .ok kv.1 →
       gw.model_cache.find? (fun p2 => p2.1 == kv.1) = some kv →
       get_chat_model gw tid ov =
         .ok (gw, .bound kv.2 (mergeParams cfg.default_params ov.params))) := by
  refine ⟨?_, ?_, ?_⟩
  · intro ov2 hp hm hb hk
    cases hgt : get_tenant gw tid with
    | error err => simp [gw_cache_key_of, hgt]
    | ok cfg => simp [gw_cache_key_of, hgt, hp, hm, hb, hk]
  · intro p
    cases hgt : get_tenant gw tid with
    | error err => simp [gw_cache_key_of, hgt]
    | ok cfg => simp [gw_cache_key_of, hgt]
  · intro cfg kv hgt hen hkey hfind
    simp only [gw_cache_key_of, hgt, Except.ok.injEq] at hkey
    simp only [get_chat_model, hgt, hen, if_true, hkey, hfind]

/-- Witness for C8: a temperature override does not change the key, and the
call is served from the cache via `bind`. -/
theorem gateway_cache_key_discipline_witness :
    (gw_cache_key_of c8Gw "default" { params := [("temperature", "0.9")] } =
       gw_cache_key_of c8Gw "default" {}) ∧
    get_chat_model c8Gw "default" { params := [("temperature", "0.9")] } =
      .ok (c8Gw, .bound c8Cached
        (mergeParams [("temperature", "0.2")] [("temperature", "0.9")])) :=
  ⟨(gateway_cache_key_discipline c8Gw "default" ({} : Overrides)).2.1
      [("temperature", "0.9")],
   (gateway_cache_key_discipline c8Gw "default"
      { params := [("temperature", "0.9")] }).2.2 c8Cfg (c8Key, c8Cached)
      rfl rfl rfl rfl⟩

/- ### Gateway failure discipline (C9) -/

/-- C9 — Gateway failure discipline: an unregistered tenant id yields the
NotFound-class error with zero backend calls; with a fresh cache, an
unsupported provider name, provider "custom" without a configured factory,
or an OpenAI call whose api key does not resolve to a truthy value each
yield a Configuration-class error with zero backend calls (eagerly — before
any backend invocation); the backend is never invoked more than once per
call (no retries); and a backend failure propagates uncaught as a
backend-class error after exactly one invocation. -/
theorem gateway_failure_discipline (gw : Gateway) (tid : String) (ov : Overrides)
    (msgs : List (String × String))
    (backend : BuiltModel → List (String × String) → Except String String) :
    (gw.tenants.find? (fun kv => kv.1 == tid) = none →
       invokeGateway gw tid ov msgs backend =
         (.error (.notFound ("Unknown tenant_id: " ++ tid)), 0)) ∧
    (∀ cfg, get_tenant gw tid = .ok cfg → gw.model_cache = [] →
       ((ov.provider.getD cfg.provider ≠ "openai" ∧ ov.provider.getD cfg.provider ≠ "ollama" ∧
         ov.provider.getD cfg.provider ≠ "custom") →
          ∃ msg, invokeGateway gw tid ov msgs backend = (.error (.configError msg), 0)) ∧
       (ov.provider.getD cfg.provider = "custom" → gw.custom_factory = none →
          ∃ msg, invokeGateway gw tid ov msgs backend = (.error (.configError msg), 0)) ∧
       (ov.provider.getD cfg.provider = "openai" →
         pyTruthy (pyOrOpt ov.api_key (pyOrOpt cfg.api_key (resolve_openai_key gw tid))) =
           false →
          ∃ msg, invokeGateway gw tid ov msgs backend = (.error (.configError msg), 0))) ∧
    ((invokeGateway gw tid ov msgs backend).2 ≤ 1) ∧
    (∀ gw2 m e, get_chat_model gw tid ov = .ok (gw2, m) → backend m msgs = .error e →
       invokeGateway gw tid ov msgs backend = (.error (.backendError e), 1)) := by
  refine ⟨?_, ?_, ?_, ?_⟩
  · intro hfind
    simp [invokeGateway, get_chat_model, get_tenant, hfind]
  · intro cfg hgt hcache
    refine ⟨?_, ?_, ?_⟩
    · rintro ⟨h1, h2, h3⟩
      refine ⟨"Unsupported provider: " ++ ov.provider.getD cfg.provider, ?_⟩
      by_cases hen : gw.enable_model_cache <;>
        simp [invokeGateway, get_chat_model, hgt, hen, hcache, build_provider_model,
              h1, h2, h3]
    · intro hcustom hfac
      refine ⟨"provider custom requires LLMGateway custom_factory", ?_⟩
      by_cases hen : gw.enable_model_cache <;>
        simp [invokeGateway, get_chat_model, hgt, hen, hcache, build_provider_model,
              hcustom, hfac]
    · intro hopenai hkey
      refine ⟨"OpenAI api_key not found for tenant " ++ cfg.tenant_id, ?_⟩
      by_cases hen : gw.enable_model_cache <;>
        simp [invokeGateway, get_chat_model, hgt, hen, hcache, build_provider_model,
              hopenai, hkey]
  · cases hres : get_chat_model gw tid ov with
    | error err => simp [invokeGateway, hres]
    | ok s =>
        cases hb : backend s.2 msgs with
        | error e2 => simp [invokeGateway, hres, hb]
        | ok content => simp [invokeGateway, hres, hb]
  · intro gw2 m e hok hb
    simp [invokeGateway, hok, hb]

/-- Witness for C9: an unknown tenant, an unsupported provider, an OpenAI
tenant without any resolvable key, and a failing backend. -/
theorem gateway_failure_discipline_witness :
    invokeGateway c9GwEmpty "ghost" {} [] (fun _ _ => .ok "hi") =
      (.error (.notFound ("Unknown tenant_id: " ++ "ghost")), 0) ∧
    (∃ msg, invokeGateway c9GwWeird "t1" {} [] (fun _ _ => .ok "hi") =
      (.error (.configError msg), 0)) ∧
    (∃ msg, invokeGateway c9GwNoKey "t1" {} [] (fun _ _ => .ok "hi") =
      (.error (.configError msg), 0)) ∧
    invokeGateway c9GwOllama "t1" {} [] (fun _ _ => .error "down") =
      (.error (.backendError "down"), 1) :=
  ⟨(gateway_failure_discipline c9GwEmpty "ghost" {} [] (fun _ _ => .ok "hi")).1 rfl,
   ((gateway_failure_discipline c9GwWeird "t1" {} [] (fun _ _ => .ok "hi")).2.1
      { tenant_id := "t1", provider := "weird" } rfl rfl).1
      ⟨by decide, by decide, by decide⟩,
   ((gateway_failure_discipline c9GwNoKey "t1" {} [] (fun _ _ => .ok "hi")).2.1
      { tenant_id := "t1" } rfl rfl).2.2 rfl rfl,
   (gateway_failure_discipline c9GwOllama "t1" {} [] (fun _ _ => .error "down")).2.2.2
      c9Gw2 c9Built "down" rfl rfl⟩
